import Mathlib

/-!
Verification of the love-letter wire-protocol library (src/lib.rs).

The library defines the message schema (`Report`, `Setpoint`, `MockloopSetpoint`,
`HeartControllerSetpoint`, `Measurements`, `AppState`), the sizing constants
`REPORT_BYTES` / `SETPOINT_BYTES`, the operating-mode transition `AppState::next`,
the `Default` construction of `Setpoint`, the diagnostic formatters, and four
serialization entry points that delegate to the postcard crate
(`postcard::to_slice_cobs` / `postcard::from_bytes_cobs`).

Modelling conventions:
- Rust `f32` fields are embedded as their IEEE-754 bit patterns, natural numbers
  below 2 to the 32.  The codec moves bit patterns, never float values, so this is
  exact for every serialization statement.  `f32val` maps a bit pattern to the
  exact rational value it denotes, used for statements about concrete values
  such as the `Default` ones.
- Rust `u64` is a natural number below 2 to the 64; byte buffers are `List Nat`
  with entries below 256.
- The codec and the COBS frame delimiter live in the postcard crate, which is not
  part of this repository's sources; they are modelled from the specification
  (sections 4.3 and 4.4): field-order type-directed encoding, fixed-width
  little-endian integers and floats, booleans as one byte, enums as a one-byte
  discriminant, and the standard consistent-overhead byte-stuffing transform
  with a single trailing 0x00 delimiter.
-/

/-- Operating mode of the controller (source: `enum AppState`, variants in
source order `StandBy`, `Running`, `Fault`, with `StandBy` marked as the
derived default). -/
inductive AppState where
  | StandBy
  | Running
  | Fault
deriving DecidableEq

/-- Source: `impl AppState { fn next(self) -> Self }` — the cyclic transition
StandBy to Running to Fault to StandBy. -/
def AppState.next : AppState → AppState
  | .StandBy => .Running
  | .Running => .Fault
  | .Fault => .StandBy

/-- Source: `#[derive(Default)]` with `#[default]` on `StandBy`. -/
def AppState.default : AppState := .StandBy

/-- Source: `struct MockloopSetpoint`, four `f32` fields kept as bit patterns. -/
structure MockloopSetpoint where
  systemic_resistance : Nat
  pulmonary_resistance : Nat
  systemic_afterload_compliance : Nat
  pulmonary_afterload_compliance : Nat
deriving DecidableEq

/-- Source: `struct HeartControllerSetpoint` — `heart_rate: Frequency`,
`pressure: Pressure` (uom quantities wrapping one `f32` in the canonical unit)
and `systole_ratio: f32`, all kept as bit patterns. -/
structure HeartControllerSetpoint where
  heart_rate : Nat
  pressure : Nat
  systole_ratio : Nat
deriving DecidableEq

/-- Source: `struct Setpoint`. -/
structure Setpoint where
  enable : Bool
  mockloop_setpoint : MockloopSetpoint
  heart_controller_setpoint : HeartControllerSetpoint
deriving DecidableEq

/-- Source: `struct Measurements` — a `u64` timestamp and seven uom quantities
(each one `f32` in its canonical unit), kept as bit patterns. -/
structure Measurements where
  timestamp : Nat
  regulator_actual_pressure : Nat
  systemic_flow : Nat
  pulmonary_flow : Nat
  systemic_preload_pressure : Nat
  systemic_afterload_pressure : Nat
  pulmonary_preload_pressure : Nat
  pulmonary_afterload_pressure : Nat
deriving DecidableEq

/-- Source: `struct Report`. -/
structure Report where
  setpoint : Setpoint
  app_state : AppState
  measurements : Measurements
deriving DecidableEq

/-- IEEE-754 single-precision bit pattern of `f32::MAX`: sign 0, biased
exponent 254, fraction all ones — 0x7F7FFFFF. -/
def f32MaxBits : Nat := 0x7F7FFFFF

/-- IEEE-754 single-precision bit pattern of `5.0f32 / 8.0f32 = 0.625`
(exactly representable): sign 0, biased exponent 126, fraction 0x200000 —
0x3F200000. -/
def fiveEighthsBits : Nat := 0x3F200000

/-- Exact rational value denoted by a single-precision bit pattern.  Normal
numbers give (2^23 + frac) * 2^expo / 2^150, subnormals frac / 2^149; biased
exponent 255 (infinities and NaNs) is outside the use made of this function.
All bit patterns appearing in the source denote finite values. -/
def f32val (bits : Nat) : ℚ :=
  let sign : Nat := bits / 2 ^ 31 % 2
  let expo : Nat := bits / 2 ^ 23 % 2 ^ 8
  let frac : Nat := bits % 2 ^ 23
  let mag : ℚ :=
    if expo = 0 then (frac : ℚ) / 2 ^ 149
    else (((2 ^ 23 + frac : Nat) : ℚ) * 2 ^ expo) / 2 ^ 150
  if sign = 0 then mag else -mag

/-- Source: `impl Default for Setpoint`.  `enable: false`, both resistances
`f32::MAX`, both compliances `0.0`, `heart_rate: Frequency::new::<hertz>(0.0)`
(canonical value 0.0), `pressure: Pressure::new::<bar>(0.0)` (canonical value
0.0 pascal), `systole_ratio: 5.0 / 8.0`. -/
def Setpoint.default : Setpoint where
  enable := false
  mockloop_setpoint :=
    { systemic_resistance := f32MaxBits
      pulmonary_resistance := f32MaxBits
      systemic_afterload_compliance := 0
      pulmonary_afterload_compliance := 0 }
  heart_controller_setpoint :=
    { heart_rate := 0
      pressure := 0
      systole_ratio := fiveEighthsBits }

/-- uom conversion used by the formatter: a pressure stored in pascal read
`get::<millimeter_of_mercury>()`; one millimeter of mercury is
133.322387415 pascal. -/
def pascalToMmHg (v : ℚ) : ℚ := v / (133322387415 / 1000000000)

/-- uom conversion used by the formatter: a volume rate stored in cubic metre
per second read `get::<liter_per_minute>()`; one liter per minute is
1 / 60000 cubic metre per second. -/
def volumeRateToLpm (v : ℚ) : ℚ := v * 60000

/-- Source: `impl Format for Measurements`.  The eight figures interpolated
into the diagnostic line, in order: timestamp, regulator pressure in mmHg,
the "sf" figure, the "pf" figure, and the four preload/afterload pressures in
mmHg.  The source passes `self.systemic_flow.get::<liter_per_minute>()` for
BOTH flow slots (lines 112 and 113 of lib.rs). -/
def measurementsFormatArgs (m : Measurements) : List ℚ :=
  [ (m.timestamp : ℚ),
    pascalToMmHg (f32val m.regulator_actual_pressure),
    volumeRateToLpm (f32val m.systemic_flow),
    volumeRateToLpm (f32val m.systemic_flow),
    pascalToMmHg (f32val m.systemic_preload_pressure),
    pascalToMmHg (f32val m.systemic_afterload_pressure),
    pascalToMmHg (f32val m.pulmonary_preload_pressure),
    pascalToMmHg (f32val m.pulmonary_afterload_pressure) ]

/-- The "sf" (systemic flow) figure of the diagnostic line. -/
def measurementsShownSf (m : Measurements) : ℚ := (measurementsFormatArgs m).getD 2 0

/-- The "pf" (pulmonary flow) figure of the diagnostic line. -/
def measurementsShownPf (m : Measurements) : ℚ := (measurementsFormatArgs m).getD 3 0

/-- Modelled from the spec: the error taxonomy of sections 4.3, 4.4 and 7 for
the codec and framing layer, which the source delegates to the postcard crate
(not part of this repository).  postcard's `SerializeBufferFull`,
`DeserializeUnexpectedEnd` and `DeserializeBadEncoding` correspond to
`bufferTooSmall`, `unexpectedEnd` / `invalidDiscriminant` and `frameCorrupt`. -/
inductive CodecError where
  | bufferTooSmall
  | unexpectedEnd
  | invalidDiscriminant
  | frameCorrupt
deriving DecidableEq

deriving instance DecidableEq for Except

/-- Modelled from the spec: a fixed-width 32-bit value written in a single
consistent byte order (little-endian), the wire form of one `f32` bit
pattern. -/
def u32le (v : Nat) : List Nat :=
  [v % 256, v / 256 % 256, v / 65536 % 256, v / 16777216 % 256]

/-- Modelled from the spec: a fixed-width 64-bit little-endian value, the wire
form of the `u64` timestamp. -/
def u64le (v : Nat) : List Nat :=
  [v % 256, v / 256 % 256, v / 65536 % 256, v / 16777216 % 256,
   v / 4294967296 % 256, v / 1099511627776 % 256,
   v / 281474976710656 % 256, v / 72057594037927936 % 256]

/-- Modelled from the spec: a boolean is one byte. -/
def encodeBool (b : Bool) : List Nat := [if b then 1 else 0]

/-- Modelled from the spec: an enum is a one-byte discriminant followed by the
variant payload, empty for the unit variants of `AppState`. -/
def encodeAppState : AppState → List Nat
  | .StandBy => [0]
  | .Running => [1]
  | .Fault => [2]

/-- Field-by-field encoding of `MockloopSetpoint` in declaration order. -/
def encodeMockloopSetpoint (m : MockloopSetpoint) : List Nat :=
  u32le m.systemic_resistance ++ u32le m.pulmonary_resistance ++
  u32le m.systemic_afterload_compliance ++ u32le m.pulmonary_afterload_compliance

/-- Field-by-field encoding of `HeartControllerSetpoint` in declaration order. -/
def encodeHeartControllerSetpoint (h : HeartControllerSetpoint) : List Nat :=
  u32le h.heart_rate ++ u32le h.pressure ++ u32le h.systole_ratio

/-- Field-by-field encoding of `Setpoint` in declaration order. -/
def encodeSetpoint (s : Setpoint) : List Nat :=
  encodeBool s.enable ++ encodeMockloopSetpoint s.mockloop_setpoint ++
  encodeHeartControllerSetpoint s.heart_controller_setpoint

/-- Field-by-field encoding of `Measurements` in declaration order. -/
def encodeMeasurements (m : Measurements) : List Nat :=
  u64le m.timestamp ++ u32le m.regulator_actual_pressure ++
  u32le m.systemic_flow ++ u32le m.pulmonary_flow ++
  u32le m.systemic_preload_pressure ++ u32le m.systemic_afterload_pressure ++
  u32le m.pulmonary_preload_pressure ++ u32le m.pulmonary_afterload_pressure

/-- Field-by-field encoding of `Report` in declaration order. -/
def encodeReport (r : Report) : List Nat :=
  encodeSetpoint r.setpoint ++ encodeAppState r.app_state ++
  encodeMeasurements r.measurements

/-- Inverse of `u32le`: consume four bytes, report the remainder, or fail with
`unexpectedEnd` when the input runs out mid-field. -/
def decodeU32 : List Nat → Except CodecError (Nat × List Nat)
  | b0 :: b1 :: b2 :: b3 :: rest =>
      .ok (b0 + 256 * b1 + 65536 * b2 + 16777216 * b3, rest)
  | _ => .error .unexpectedEnd

/-- Inverse of `u64le`. -/
def decodeU64 : List Nat → Except CodecError (Nat × List Nat)
  | b0 :: b1 :: b2 :: b3 :: b4 :: b5 :: b6 :: b7 :: rest =>
      .ok (b0 + 256 * b1 + 65536 * b2 + 16777216 * b3 + 4294967296 * b4 +
           1099511627776 * b5 + 281474976710656 * b6 +
           72057594037927936 * b7, rest)
  | _ => .error .unexpectedEnd

/-- Inverse of `encodeBool`: a tag outside the two boolean values is a hard
decode failure, never a silent default. -/
def decodeBool : List Nat → Except CodecError (Bool × List Nat)
  | [] => .error .unexpectedEnd
  | 0 :: rest => .ok (false, rest)
  | 1 :: rest => .ok (true, rest)
  | _ :: _ => .error .invalidDiscriminant

/-- Inverse of `encodeAppState`: a discriminant outside the known variant range
is `invalidDiscriminant`, never a silent `StandBy`. -/
def decodeAppState : List Nat → Except CodecError (AppState × List Nat)
  | [] => .error .unexpectedEnd
  | 0 :: rest => .ok (.StandBy, rest)
  | 1 :: rest => .ok (.Running, rest)
  | 2 :: rest => .ok (.Fault, rest)
  | _ :: _ => .error .invalidDiscriminant

/-- Inverse of `encodeMockloopSetpoint`. -/
def decodeMockloopSetpoint (bs : List Nat) :
    Except CodecError (MockloopSetpoint × List Nat) := do
  let (sr, bs) ← decodeU32 bs
  let (pr, bs) ← decodeU32 bs
  let (sc, bs) ← decodeU32 bs
  let (pc, bs) ← decodeU32 bs
  pure ({ systemic_resistance := sr, pulmonary_resistance := pr,
          systemic_afterload_compliance := sc,
          pulmonary_afterload_compliance := pc }, bs)

/-- Inverse of `encodeHeartControllerSetpoint`. -/
def decodeHeartControllerSetpoint (bs : List Nat) :
    Except CodecError (HeartControllerSetpoint × List Nat) := do
  let (hr, bs) ← decodeU32 bs
  let (pr, bs) ← decodeU32 bs
  let (ra, bs) ← decodeU32 bs
  pure ({ heart_rate := hr, pressure := pr, systole_ratio := ra }, bs)

/-- Inverse of `encodeSetpoint`. -/
def decodeSetpoint (bs : List Nat) :
    Except CodecError (Setpoint × List Nat) := do
  let (en, bs) ← decodeBool bs
  let (ml, bs) ← decodeMockloopSetpoint bs
  let (hc, bs) ← decodeHeartControllerSetpoint bs
  pure ({ enable := en, mockloop_setpoint := ml,
          heart_controller_setpoint := hc }, bs)

/-- Inverse of `encodeMeasurements`. -/
def decodeMeasurements (bs : List Nat) :
    Except CodecError (Measurements × List Nat) := do
  let (ts, bs) ← decodeU64 bs
  let (rp, bs) ← decodeU32 bs
  let (sf, bs) ← decodeU32 bs
  let (pf, bs) ← decodeU32 bs
  let (sp, bs) ← decodeU32 bs
  let (sa, bs) ← decodeU32 bs
  let (pp, bs) ← decodeU32 bs
  let (pa, bs) ← decodeU32 bs
  pure ({ timestamp := ts, regulator_actual_pressure := rp,
          systemic_flow := sf, pulmonary_flow := pf,
          systemic_preload_pressure := sp, systemic_afterload_pressure := sa,
          pulmonary_preload_pressure := pp,
          pulmonary_afterload_pressure := pa }, bs)

/-- Inverse of `encodeReport`. -/
def decodeReport (bs : List Nat) :
    Except CodecError (Report × List Nat) := do
  let (sp, bs) ← decodeSetpoint bs
  let (st, bs) ← decodeAppState bs
  let (ms, bs) ← decodeMeasurements bs
  pure ({ setpoint := sp, app_state := st, measurements := ms }, bs)

/-- Modelled from the spec: the standard consistent-overhead byte-stuffing
transform (section 4.4), written as the usual one-pass algorithm.  `acc` is
the group of non-zero bytes accumulated so far (always free of zeros and of
length at most 253).  A group closes at a zero byte, at the end of the input,
or on reaching 254 bytes, and is emitted as a one-byte code (its length plus
one, or 255 for a full group that implies no zero) followed by its bytes. -/
def cobsBodyAux : List Nat → List Nat → List Nat
  | acc, [] => (acc.length + 1) :: acc
  | acc, b :: rest =>
    if b = 0 then
      ((acc.length + 1) :: acc) ++ cobsBodyAux [] rest
    else if acc.length = 253 then
      (255 :: (acc ++ [b])) ++ cobsBodyAux [] rest
    else
      cobsBodyAux (acc ++ [b]) rest

/-- The byte-stuffed body of a payload, before the trailing delimiter. -/
def cobsBody (data : List Nat) : List Nat := cobsBodyAux [] data

/-- Modelled from the spec: the frame encoder — the stuffed body followed by
the single terminating 0x00 delimiter. -/
def cobsEncode (data : List Nat) : List Nat := cobsBody data ++ [0]

/-- Modelled from the spec: the inverse transform.  State: `k` is the number of
data bytes still owed to the current group, `ff` tells whether that group was
coded 255 (so no zero is implied after it).  Decoding starts before the first
code byte with `ff = true`; a zero byte in code-byte position is the frame
delimiter; a zero anywhere else, or running out of bytes before the delimiter,
is a corrupt frame (`none`). -/
def cobsDecodeAux : Nat → Bool → List Nat → Option (List Nat)
  | 0, _, [] => none
  | 0, ff, b :: rest =>
    if b = 0 then some []
    else
      match cobsDecodeAux (b - 1) (b = 255) rest with
      | none => none
      | some t => if ff then some t else some (0 :: t)
  | _ + 1, _, [] => none
  | k + 1, ff, b :: rest =>
    if b = 0 then none
    else
      match cobsDecodeAux k ff rest with
      | none => none
      | some t => some (b :: t)

/-- Modelled from the spec: recover the original codec bytes from a
delimiter-terminated chunk, or fail on a corrupt frame. -/
def cobsDecodeFrame (bs : List Nat) : Option (List Nat) := cobsDecodeAux 0 true bs

/-- Source: `pub const REPORT_BYTES: usize = core::mem::size_of::<Report>()`.
The in-memory size of `Report` is 80 bytes: `Measurements` is 8 (u64) plus
7 times 4 (f32) = 36 data bytes padded to 40 by its 8-byte alignment,
`Setpoint` is 1 (bool) plus 7 times 4 = 29 data bytes padded to 32 by its
4-byte alignment, `AppState` is 1 byte, and 32 + 1 + 40 = 73 rounds up to 80
by the 8-byte alignment of `Report` (the total is the same under any field
ordering the compiler may choose). -/
def REPORT_BYTES : Nat := 80

/-- Source: `pub const SETPOINT_BYTES: usize = core::mem::size_of::<Setpoint>()`
= 32 (29 data bytes, 4-byte alignment). -/
def SETPOINT_BYTES : Nat := 32

/-- Source: `serialize_report` = `postcard::to_slice_cobs(&report, buf)`.
Modelled from the spec: the frame encoding of the codec bytes is written into
the caller's buffer when it fits and the written slice is returned; on
`bufferTooSmall` the buffer is left unmodified (all-or-nothing, section 4.3).
The pair is (returned result, buffer contents after the call). -/
def serialize_report (r : Report) (buf : List Nat) :
    Except CodecError (List Nat) × List Nat :=
  let out := cobsEncode (encodeReport r)
  if out.length ≤ buf.length then (.ok out, out ++ buf.drop out.length)
  else (.error .bufferTooSmall, buf)

/-- Source: `serialize_setpoint` = `postcard::to_slice_cobs(&setpoint, buf)`,
modelled as `serialize_report`. -/
def serialize_setpoint (s : Setpoint) (buf : List Nat) :
    Except CodecError (List Nat) × List Nat :=
  let out := cobsEncode (encodeSetpoint s)
  if out.length ≤ buf.length then (.ok out, out ++ buf.drop out.length)
  else (.error .bufferTooSmall, buf)

/-- Source: `deserialize_report` = `postcard::from_bytes_cobs(buf)`.  Modelled
from the spec: unstuff the delimiter-terminated chunk, then decode the codec
bytes, ignoring any remainder after the decoded value. -/
def deserialize_report (buf : List Nat) : Except CodecError Report :=
  match cobsDecodeFrame buf with
  | none => .error .frameCorrupt
  | some payload =>
    match decodeReport payload with
    | .ok (r, _) => .ok r
    | .error e => .error e

/-- Source: `deserialize_setpoint` = `postcard::from_bytes_cobs(buf)`. -/
def deserialize_setpoint (buf : List Nat) : Except CodecError Setpoint :=
  match cobsDecodeFrame buf with
  | none => .error .frameCorrupt
  | some payload =>
    match decodeSetpoint payload with
    | .ok (s, _) => .ok s
    | .error e => .error e

/-- A `MockloopSetpoint` embedding is the image of a Rust value when every
`f32` bit pattern is below 2 to the 32. -/
def MockloopSetpoint.Valid (m : MockloopSetpoint) : Prop :=
  m.systemic_resistance < 2 ^ 32 ∧ m.pulmonary_resistance < 2 ^ 32 ∧
  m.systemic_afterload_compliance < 2 ^ 32 ∧
  m.pulmonary_afterload_compliance < 2 ^ 32

/-- Range constraint making a `HeartControllerSetpoint` the image of a Rust
value. -/
def HeartControllerSetpoint.Valid (h : HeartControllerSetpoint) : Prop :=
  h.heart_rate < 2 ^ 32 ∧ h.pressure < 2 ^ 32 ∧ h.systole_ratio < 2 ^ 32

/-- Range constraint making a `Setpoint` the image of a Rust value. -/
def Setpoint.Valid (s : Setpoint) : Prop :=
  MockloopSetpoint.Valid s.mockloop_setpoint ∧
  HeartControllerSetpoint.Valid s.heart_controller_setpoint

/-- Range constraint making a `Measurements` the image of a Rust value. -/
def Measurements.Valid (m : Measurements) : Prop :=
  m.timestamp < 2 ^ 64 ∧ m.regulator_actual_pressure < 2 ^ 32 ∧
  m.systemic_flow < 2 ^ 32 ∧ m.pulmonary_flow < 2 ^ 32 ∧
  m.systemic_preload_pressure < 2 ^ 32 ∧
  m.systemic_afterload_pressure < 2 ^ 32 ∧
  m.pulmonary_preload_pressure < 2 ^ 32 ∧
  m.pulmonary_afterload_pressure < 2 ^ 32

/-- Range constraint making a `Report` the image of a Rust value. -/
def Report.Valid (r : Report) : Prop :=
  Setpoint.Valid r.setpoint ∧ Measurements.Valid r.measurements

instance (m : MockloopSetpoint) : Decidable (MockloopSetpoint.Valid m) := by
  unfold MockloopSetpoint.Valid; infer_instance

instance (h : HeartControllerSetpoint) : Decidable (HeartControllerSetpoint.Valid h) := by
  unfold HeartControllerSetpoint.Valid; infer_instance

instance (s : Setpoint) : Decidable (Setpoint.Valid s) := by
  unfold Setpoint.Valid; infer_instance

instance (m : Measurements) : Decidable (Measurements.Valid m) := by
  unfold Measurements.Valid; infer_instance

instance (r : Report) : Decidable (Report.Valid r) := by
  unfold Report.Valid; infer_instance

/-- Concrete measurements used to instantiate theorems with hypotheses: the
concrete scenario of spec section 8 (timestamp 1000, all pressures and flows
zero). -/
def exampleMeasurements : Measurements where
  timestamp := 1000
  regulator_actual_pressure := 0
  systemic_flow := 0
  pulmonary_flow := 0
  systemic_preload_pressure := 0
  systemic_afterload_pressure := 0
  pulmonary_preload_pressure := 0
  pulmonary_afterload_pressure := 0

/-- Concrete report of the spec section 8 scenario: default setpoint,
`Running`, the example measurements. -/
def exampleReport : Report where
  setpoint := Setpoint.default
  app_state := .Running
  measurements := exampleMeasurements

/-- A receive buffer of the published `REPORT_BYTES` size. -/
def exampleBufR : List Nat := List.replicate 80 0

/-- A receive buffer of the published `SETPOINT_BYTES` size. -/
def exampleBufS : List Nat := List.replicate 32 0

/-- The frame produced by serializing `exampleReport`. -/
def exampleFrameR : List Nat := cobsEncode (encodeReport exampleReport)

/-- The frame produced by serializing the default `Setpoint`. -/
def exampleFrameS : List Nat := cobsEncode (encodeSetpoint Setpoint.default)

/-- A codec payload whose app_state discriminant byte (offset 29, just after
the 29 setpoint bytes) is 7, outside the known variant range 0..2. -/
def invalidTagPayload : List Nat :=
  List.replicate 29 0 ++ 7 :: List.replicate 36 0

/-- The setpoint with every byte zero, as decoded from 29 zero bytes. -/
def zeroSetpoint : Setpoint where
  enable := false
  mockloop_setpoint :=
    { systemic_resistance := 0, pulmonary_resistance := 0,
      systemic_afterload_compliance := 0, pulmonary_afterload_compliance := 0 }
  heart_controller_setpoint :=
    { heart_rate := 0, pressure := 0, systole_ratio := 0 }

theorem exceptBindOk {e a b : Type} (x : a) (f : a → Except e b) :
    (Except.ok x >>= f) = f x := rfl

theorem exceptBindErr {e a b : Type} (x : e) (f : a → Except e b) :
    (Except.error x >>= f) = Except.error x := rfl

theorem decodeU32_u32le (v : Nat) (rest : List Nat) (h : v < 4294967296) :
    decodeU32 (u32le v ++ rest) = .ok (v, rest) := by
  have hv : v % 256 + 256 * (v / 256 % 256) + 65536 * (v / 65536 % 256) +
      16777216 * (v / 16777216 % 256) = v := by omega
  simp [u32le, decodeU32, hv]

theorem decodeU64_u64le (v : Nat) (rest : List Nat)
    (h : v < 18446744073709551616) :
    decodeU64 (u64le v ++ rest) = .ok (v, rest) := by
  have hv : v % 256 + 256 * (v / 256 % 256) + 65536 * (v / 65536 % 256) +
      16777216 * (v / 16777216 % 256) + 4294967296 * (v / 4294967296 % 256) +
      1099511627776 * (v / 1099511627776 % 256) +
      281474976710656 * (v / 281474976710656 % 256) +
      72057594037927936 * (v / 72057594037927936 % 256) = v := by omega
  simp [u64le, decodeU64, hv]

theorem decodeBool_encodeBool (b : Bool) (rest : List Nat) :
    decodeBool (encodeBool b ++ rest) = .ok (b, rest) := by
  cases b <;> simp [encodeBool, decodeBool]

theorem decodeAppState_encodeAppState (a : AppState) (rest : List Nat) :
    decodeAppState (encodeAppState a ++ rest) = .ok (a, rest) := by
  cases a <;> simp [encodeAppState, decodeAppState]

theorem decodeMockloopSetpoint_encode (m : MockloopSetpoint) (rest : List Nat)
    (h : MockloopSetpoint.Valid m) :
    decodeMockloopSetpoint (encodeMockloopSetpoint m ++ rest) = .ok (m, rest) := by
  obtain ⟨h1, h2, h3, h4⟩ := h
  simp only [encodeMockloopSetpoint, List.append_assoc]
  rw [decodeMockloopSetpoint, decodeU32_u32le _ _ h1]
  simp only [exceptBindOk]
  rw [decodeU32_u32le _ _ h2]
  simp only [exceptBindOk]
  rw [decodeU32_u32le _ _ h3]
  simp only [exceptBindOk]
  rw [decodeU32_u32le _ _ h4]
  simp only [exceptBindOk]
  rfl

theorem decodeHeartControllerSetpoint_encode (h : HeartControllerSetpoint)
    (rest : List Nat) (hv : HeartControllerSetpoint.Valid h) :
    decodeHeartControllerSetpoint (encodeHeartControllerSetpoint h ++ rest) =
      .ok (h, rest) := by
  obtain ⟨h1, h2, h3⟩ := hv
  simp only [encodeHeartControllerSetpoint, List.append_assoc,
    decodeHeartControllerSetpoint, decodeU32_u32le _ _ h1, exceptBindOk,
    decodeU32_u32le _ _ h2, decodeU32_u32le _ _ h3]
  rfl

theorem decodeSetpoint_encode (s : Setpoint) (rest : List Nat)
    (hv : Setpoint.Valid s) :
    decodeSetpoint (encodeSetpoint s ++ rest) = .ok (s, rest) := by
  obtain ⟨hm, hh⟩ := hv
  simp only [encodeSetpoint, List.append_assoc, decodeSetpoint,
    decodeBool_encodeBool, exceptBindOk, decodeMockloopSetpoint_encode _ _ hm,
    decodeHeartControllerSetpoint_encode _ _ hh]
  rfl

theorem decodeMeasurements_encode (m : Measurements) (rest : List Nat)
    (hv : Measurements.Valid m) :
    decodeMeasurements (encodeMeasurements m ++ rest) = .ok (m, rest) := by
  obtain ⟨h0, h1, h2, h3, h4, h5, h6, h7⟩ := hv
  simp only [encodeMeasurements, List.append_assoc, decodeMeasurements,
    decodeU64_u64le _ _ h0, exceptBindOk, decodeU32_u32le _ _ h1,
    decodeU32_u32le _ _ h2, decodeU32_u32le _ _ h3, decodeU32_u32le _ _ h4,
    decodeU32_u32le _ _ h5, decodeU32_u32le _ _ h6, decodeU32_u32le _ _ h7]
  rfl

theorem decodeReport_encode (r : Report) (rest : List Nat) (hv : Report.Valid r) :
    decodeReport (encodeReport r ++ rest) = .ok (r, rest) := by
  obtain ⟨hs, hm⟩ := hv
  simp only [encodeReport, List.append_assoc, decodeReport,
    decodeSetpoint_encode _ _ hs, exceptBindOk,
    decodeAppState_encodeAppState, decodeMeasurements_encode _ _ hm]
  rfl

theorem encodeReport_length (r : Report) : (encodeReport r).length = 66 := by
  simp [encodeReport, encodeSetpoint, encodeMockloopSetpoint,
    encodeHeartControllerSetpoint, encodeMeasurements, encodeBool, u32le, u64le]
  cases r.app_state <;> simp [encodeAppState]

theorem encodeSetpoint_length (s : Setpoint) : (encodeSetpoint s).length = 29 := by
  simp [encodeSetpoint, encodeMockloopSetpoint,
    encodeHeartControllerSetpoint, encodeBool, u32le]

theorem cobsBodyAux_zero_free (d : List Nat) :
    ∀ acc, 0 ∉ acc → 0 ∉ cobsBodyAux acc d := by
  induction d with
  | nil =>
    intro acc h
    simp only [cobsBodyAux, List.mem_cons]
    rintro (h1 | h2)
    · omega
    · exact h h2
  | cons b rest ih =>
    intro acc h
    rw [cobsBodyAux]
    split_ifs with hb hlen
    · intro hmem
      rcases List.mem_append.mp hmem with h1 | h3
      · rcases List.mem_cons.mp h1 with h1 | h2
        · omega
        · exact h h2
      · exact ih [] (by simp) h3
    · intro hmem
      rcases List.mem_append.mp hmem with h1 | h3
      · rcases List.mem_cons.mp h1 with h1 | h2
        · omega
        · rcases List.mem_append.mp h2 with h4 | h5
          · exact h h4
          · simp only [List.mem_singleton] at h5
            exact hb h5.symm
      · exact ih [] (by simp) h3
    · refine ih (acc ++ [b]) ?_ 
      intro hmem
      rcases List.mem_append.mp hmem with h4 | h5
      · exact h h4
      · simp only [List.mem_singleton] at h5
        exact hb h5.symm

theorem cobsDecodeAux_group (g : List Nat) (ff : Bool) (rest : List Nat)
    (hg : 0 ∉ g) :
    cobsDecodeAux g.length ff (g ++ rest) =
      (cobsDecodeAux 0 ff rest).map (g ++ ·) := by
  induction g with
  | nil =>
    simp only [List.length_nil, List.nil_append]
    cases cobsDecodeAux 0 ff rest <;> simp
  | cons x g ih =>
    have hx : ¬ x = 0 := fun h => hg (by simp [h])
    have hg2 : 0 ∉ g := fun h => hg (List.mem_cons_of_mem _ h)
    simp only [List.length_cons, List.cons_append]
    rw [cobsDecodeAux]
    simp only [if_neg hx, ih hg2]
    cases cobsDecodeAux 0 ff rest <;> simp

theorem cobsDecodeAux_cobsBodyAux (d : List Nat) :
    ∀ acc extra (ff : Bool), 0 ∉ acc → acc.length ≤ 253 →
      cobsDecodeAux 0 ff (cobsBodyAux acc d ++ 0 :: extra) =
        some (if ff then acc ++ d else 0 :: (acc ++ d)) := by
  induction d with
  | nil =>
    intro acc extra ff hz hl
    have hbz : ¬ (acc.length + 1 = 0) := by omega
    have h255 : ¬ (acc.length + 1 = 255) := by omega
    rw [cobsBodyAux, List.cons_append, cobsDecodeAux, if_neg hbz,
        decide_eq_false h255, Nat.add_sub_cancel,
        cobsDecodeAux_group acc false (0 :: extra) hz]
    rw [show cobsDecodeAux 0 false (0 :: extra) = some [] from by
      rw [cobsDecodeAux]; simp]
    cases ff <;> simp
  | cons b rest ih =>
    intro acc extra ff hz hl
    rw [cobsBodyAux]
    by_cases hb0 : b = 0
    · rw [if_pos hb0]
      have hbz : ¬ (acc.length + 1 = 0) := by omega
      have h255 : ¬ (acc.length + 1 = 255) := by omega
      simp only [List.cons_append, List.append_assoc]
      rw [cobsDecodeAux, if_neg hbz, decide_eq_false h255, Nat.add_sub_cancel,
          cobsDecodeAux_group acc false _ hz,
          ih [] extra false (by simp) (by simp)]
      subst hb0
      cases ff <;> simp
    · rw [if_neg hb0]
      by_cases hlen : acc.length = 253
      · rw [if_pos hlen]
        have hg : 0 ∉ acc ++ [b] := by
          intro hmem
          rcases List.mem_append.mp hmem with h4 | h5
          · exact hz h4
          · simp only [List.mem_singleton] at h5
            exact hb0 h5.symm
        have hgrp := cobsDecodeAux_group (acc ++ [b]) true
            (cobsBodyAux [] rest ++ 0 :: extra) hg
        simp only [List.append_assoc, List.cons_append, List.nil_append] at hgrp
        simp only [List.cons_append, List.append_assoc, List.nil_append]
        rw [cobsDecodeAux, if_neg (by omega : ¬ ((255 : Nat) = 0)),
            show (decide ((255 : Nat) = 255)) = true from by simp,
            show (255 : Nat) - 1 = (acc ++ [b]).length from by
              simp [List.length_append, hlen],
            hgrp, ih [] extra true (by simp) (by simp)]
        cases ff <;> simp
      · rw [if_neg hlen]
        have hz2 : 0 ∉ acc ++ [b] := by
          intro hmem
          rcases List.mem_append.mp hmem with h4 | h5
          · exact hz h4
          · simp only [List.mem_singleton] at h5
            exact hb0 h5.symm
        have hl2 : (acc ++ [b]).length ≤ 253 := by
          simp only [List.length_append, List.length_singleton]
          omega
        rw [ih (acc ++ [b]) extra ff hz2 hl2]
        cases ff <;> simp

theorem cobsDecodeFrame_cobsEncode (p : List Nat) :
    cobsDecodeFrame (cobsEncode p) = some p := by
  have h := cobsDecodeAux_cobsBodyAux p [] [] true (by simp) (by simp)
  simpa [cobsDecodeFrame, cobsEncode, cobsBody] using h

theorem cobsBodyAux_length (d : List Nat) :
    ∀ acc, acc.length + d.length ≤ 253 →
      (cobsBodyAux acc d).length ≤ acc.length + d.length + 1 := by
  induction d with
  | nil =>
    intro acc h
    simp [cobsBodyAux]
  | cons b rest ih =>
    intro acc h
    simp only [List.length_cons] at h
    rw [cobsBodyAux]
    split_ifs with hb0 hlen
    · have := ih [] (by simp; omega)
      simp only [List.length_append, List.length_cons] at this ⊢
      simp at this
      omega
    · omega
    · have := ih (acc ++ [b]) (by simp; omega)
      simp only [List.length_append, List.length_singleton] at this
      simp only [List.length_cons]
      omega

theorem serialize_report_ok (r : Report) (buf out : List Nat)
    (h : (serialize_report r buf).1 = .ok out) :
    out = cobsEncode (encodeReport r) := by
  unfold serialize_report at h
  simp only [] at h
  split_ifs at h
  simpa using h.symm

theorem serialize_setpoint_ok (s : Setpoint) (buf out : List Nat)
    (h : (serialize_setpoint s buf).1 = .ok out) :
    out = cobsEncode (encodeSetpoint s) := by
  unfold serialize_setpoint at h
  simp only [] at h
  split_ifs at h
  simpa using h.symm

/-- C1: deserializing the byte slice produced by a successful
`serialize_report` (resp. `serialize_setpoint`) with `deserialize_report`
(resp. `deserialize_setpoint`) yields the original `Report` (resp. `Setpoint`),
equal bit-for-bit in every typed field. -/
theorem roundtrip_serialize_then_deserialize
    (r : Report) (s : Setpoint) (bufR bufS outR outS : List Nat)
    (hr : Report.Valid r) (hs : Setpoint.Valid s)
    (hR : (serialize_report r bufR).1 = .ok outR)
    (hS : (serialize_setpoint s bufS).1 = .ok outS) :
    deserialize_report outR = .ok r ∧ deserialize_setpoint outS = .ok s := by
  obtain rfl := serialize_report_ok r bufR outR hR
  obtain rfl := serialize_setpoint_ok s bufS outS hS
  constructor
  · have h1 : cobsDecodeFrame (cobsEncode (encodeReport r)) =
        some (encodeReport r) := cobsDecodeFrame_cobsEncode _
    have h2 : decodeReport (encodeReport r) = .ok (r, []) := by
      simpa using decodeReport_encode r [] hr
    unfold deserialize_report
    rw [h1]
    simp [h2]
  · have h1 : cobsDecodeFrame (cobsEncode (encodeSetpoint s)) =
        some (encodeSetpoint s) := cobsDecodeFrame_cobsEncode _
    have h2 : decodeSetpoint (encodeSetpoint s) = .ok (s, []) := by
      simpa using decodeSetpoint_encode s [] hs
    unfold deserialize_setpoint
    rw [h1]
    simp [h2]

/-- Witness for C1 at the concrete scenario report and default setpoint. -/
theorem roundtrip_serialize_then_deserialize_witness :
    deserialize_report exampleFrameR = .ok exampleReport ∧
    deserialize_setpoint exampleFrameS = .ok Setpoint.default :=
  roundtrip_serialize_then_deserialize exampleReport Setpoint.default
    exampleBufR exampleBufS exampleFrameR exampleFrameS
    (by decide) (by decide) (by decide) (by decide)

/-- C2: the length of the byte slice returned by a successful
`serialize_report` is at most `REPORT_BYTES`, and the one returned by a
successful `serialize_setpoint` is at most `SETPOINT_BYTES`: the published
compile-time constants are upper bounds on the encoded size. -/
theorem serialize_length_within_constants
    (r : Report) (s : Setpoint) (bufR bufS outR outS : List Nat)
    (hR : (serialize_report r bufR).1 = .ok outR)
    (hS : (serialize_setpoint s bufS).1 = .ok outS) :
    outR.length ≤ REPORT_BYTES ∧ outS.length ≤ SETPOINT_BYTES := by
  obtain rfl := serialize_report_ok r bufR outR hR
  obtain rfl := serialize_setpoint_ok s bufS outS hS
  constructor
  · have h1 := cobsBodyAux_length (encodeReport r) []
      (by simp [encodeReport_length])
    simp only [List.length_nil, encodeReport_length, Nat.zero_add] at h1
    simp only [cobsEncode, cobsBody, List.length_append, List.length_cons,
      List.length_nil, REPORT_BYTES]
    omega
  · have h1 := cobsBodyAux_length (encodeSetpoint s) []
      (by simp [encodeSetpoint_length])
    simp only [List.length_nil, encodeSetpoint_length, Nat.zero_add] at h1
    simp only [cobsEncode, cobsBody, List.length_append, List.length_cons,
      List.length_nil, SETPOINT_BYTES]
    omega

/-- Witness for C2 at the concrete scenario report and default setpoint. -/
theorem serialize_length_within_constants_witness :
    exampleFrameR.length ≤ REPORT_BYTES ∧
    exampleFrameS.length ≤ SETPOINT_BYTES :=
  serialize_length_within_constants exampleReport Setpoint.default
    exampleBufR exampleBufS exampleFrameR exampleFrameS (by decide) (by decide)

/-- C3: every frame produced by the serializers contains the byte 0x00 exactly
once, and that occurrence is at the final position of the returned slice. -/
theorem serialize_single_zero_at_end
    (r : Report) (s : Setpoint) (bufR bufS outR outS : List Nat)
    (hR : (serialize_report r bufR).1 = .ok outR)
    (hS : (serialize_setpoint s bufS).1 = .ok outS) :
    (outR.count 0 = 1 ∧ outR.getLast? = some 0) ∧
    (outS.count 0 = 1 ∧ outS.getLast? = some 0) := by
  obtain rfl := serialize_report_ok r bufR outR hR
  obtain rfl := serialize_setpoint_ok s bufS outS hS
  have hzR : List.count 0 (cobsBodyAux [] (encodeReport r)) = 0 :=
    List.count_eq_zero.mpr (cobsBodyAux_zero_free (encodeReport r) [] (by simp))
  have hzS : List.count 0 (cobsBodyAux [] (encodeSetpoint s)) = 0 :=
    List.count_eq_zero.mpr (cobsBodyAux_zero_free (encodeSetpoint s) [] (by simp))
  refine ⟨⟨?_, ?_⟩, ?_, ?_⟩
  · simp [cobsEncode, cobsBody, List.count_append, hzR]
  · simp [cobsEncode, List.getLast?_concat]
  · simp [cobsEncode, cobsBody, List.count_append, hzS]
  · simp [cobsEncode, List.getLast?_concat]

/-- Witness for C3 at the concrete scenario report and default setpoint. -/
theorem serialize_single_zero_at_end_witness :
    (exampleFrameR.count 0 = 1 ∧ exampleFrameR.getLast? = some 0) ∧
    (exampleFrameS.count 0 = 1 ∧ exampleFrameS.getLast? = some 0) :=
  serialize_single_zero_at_end exampleReport Setpoint.default
    exampleBufR exampleBufS exampleFrameR exampleFrameS (by decide) (by decide)

/-- C4: on any input buffer whose decoded app_state discriminant lies outside
the known variant range (tag at least 3 after the setpoint field),
`deserialize_report` returns the `invalidDiscriminant` error: it never succeeds
and in particular never substitutes `StandBy` for the invalid tag. -/
theorem deserialize_report_invalid_tag_errors
    (buf payload rest : List Nat) (s : Setpoint) (t : Nat)
    (hframe : cobsDecodeFrame buf = some payload)
    (hsp : decodeSetpoint payload = .ok (s, t :: rest))
    (ht : 3 ≤ t) :
    deserialize_report buf = .error CodecError.invalidDiscriminant := by
  have htag : decodeAppState (t :: rest) = .error CodecError.invalidDiscriminant := by
    obtain ⟨k, rfl⟩ : ∃ k, t = k + 3 := ⟨t - 3, by omega⟩
    rfl
  have hrep : decodeReport payload = .error CodecError.invalidDiscriminant := by
    rw [decodeReport, hsp]
    simp only [exceptBindOk]
    rw [htag]
    rfl
  unfold deserialize_report
  rw [hframe]
  simp [hrep]

/-- Witness for C4: a frame whose payload carries discriminant 7 in the
app_state position. -/
theorem deserialize_report_invalid_tag_errors_witness :
    deserialize_report (cobsEncode invalidTagPayload) =
      .error CodecError.invalidDiscriminant :=
  deserialize_report_invalid_tag_errors (cobsEncode invalidTagPayload)
    invalidTagPayload (List.replicate 36 0) zeroSetpoint 7
    (by decide) (by decide) (by decide)

/-- C5: the serializers are total functions, and whenever one returns an error
the caller's output buffer is left exactly as it was (all-or-nothing encode). -/
theorem serialize_error_buffer_unchanged
    (r : Report) (s : Setpoint) (bufR bufS : List Nat) (eR eS : CodecError)
    (hR : (serialize_report r bufR).1 = .error eR)
    (hS : (serialize_setpoint s bufS).1 = .error eS) :
    (serialize_report r bufR).2 = bufR ∧ (serialize_setpoint s bufS).2 = bufS := by
  constructor
  · unfold serialize_report at hR ⊢
    simp only [] at hR ⊢
    split_ifs at hR ⊢ with h
    rfl
  · unfold serialize_setpoint at hS ⊢
    simp only [] at hS ⊢
    split_ifs at hS ⊢ with h
    rfl

/-- Witness for C5: serializing into an empty buffer fails with
`bufferTooSmall` and leaves the buffer empty. -/
theorem serialize_error_buffer_unchanged_witness :
    (serialize_report exampleReport []).2 = [] ∧
    (serialize_setpoint Setpoint.default []).2 = [] :=
  serialize_error_buffer_unchanged exampleReport Setpoint.default [] []
    CodecError.bufferTooSmall CodecError.bufferTooSmall (by decide) (by decide)

/-- C6: `AppState.next` is a total cyclic transition StandBy to Running to
Fault to StandBy: three steps return to the start and no state is a fixed
point, so there is no terminal state. -/
theorem appState_next_cycle (s : AppState) :
    s.next.next.next = s ∧ s.next ≠ s := by
  cases s <;> exact ⟨rfl, by decide⟩

/-- C7 counterexample: the default-constructed `Setpoint` does NOT have
systole_ratio 3/7 — the stored bit pattern denotes a different rational. -/
theorem default_systole_ratio_ne_three_sevenths :
    f32val Setpoint.default.heart_controller_setpoint.systole_ratio ≠ 3 / 7 := by
  norm_num [Setpoint.default, f32val, fiveEighthsBits]

/-- C7 (amended): the default-constructed `Setpoint` has heart-controller
systole_ratio 5/8 = 0.625, the legacy default, not the conventional 3/7. -/
theorem default_systole_ratio_five_eighths :
    f32val Setpoint.default.heart_controller_setpoint.systole_ratio = 5 / 8 := by
  norm_num [Setpoint.default, f32val, fiveEighthsBits]

/-- C8: default construction yields the inert values — `enable` false, both
resistances the representable `f32` maximum (whose exact value is
(2 to the 24 minus 1) times 2 to the 104, about 3.4e38), both compliances zero,
heart rate 0 Hz, regulator pressure 0, and the default `AppState` is
`StandBy`. -/
theorem default_values_inert :
    Setpoint.default.enable = false ∧
    Setpoint.default.mockloop_setpoint.systemic_resistance = f32MaxBits ∧
    Setpoint.default.mockloop_setpoint.pulmonary_resistance = f32MaxBits ∧
    f32val f32MaxBits = (2 ^ 24 - 1) * 2 ^ 104 ∧
    Setpoint.default.mockloop_setpoint.systemic_afterload_compliance = 0 ∧
    Setpoint.default.mockloop_setpoint.pulmonary_afterload_compliance = 0 ∧
    Setpoint.default.heart_controller_setpoint.heart_rate = 0 ∧
    Setpoint.default.heart_controller_setpoint.pressure = 0 ∧
    f32val 0 = 0 ∧
    AppState.default = AppState.StandBy := by
  refine ⟨rfl, rfl, rfl, ?_, rfl, rfl, rfl, rfl, ?_, rfl⟩
  · norm_num [f32val, f32MaxBits]
  · norm_num [f32val]

/-- C9: in the diagnostic text format of `Measurements` the "pf" figure is
rendered from `systemic_flow`, so the systemic and pulmonary flow figures are
always identical and the "pf" figure does not depend on `pulmonary_flow` at
all. -/
theorem formatter_pf_from_systemic_flow (m : Measurements) (x : Nat) :
    measurementsShownPf m = measurementsShownSf m ∧
    measurementsShownPf { m with pulmonary_flow := x } = measurementsShownPf m :=
  ⟨rfl, rfl⟩
